import Mathlib

/-!
# Verification of the Snake game simulation

Shallow embedding of the game simulation in
`src/snake-game/src/SnakeGame.jsx` (a single React component).

Modelling choices:
* JS numbers that hold coordinates, scores and speeds are integral here
  (`Int` for coordinates and speed, `Nat` for scores); the game only ever
  performs integer arithmetic on them.
* JS `%` is truncating remainder, embedded as `Int.tmod`.
* The `while (true)` rejection-sampling loop of `randomFoodPosition` is
  embedded with an explicit stream of samples (`samples : Nat → Cell`,
  standing for the successive `Math.floor(Math.random() * GRID_SIZE)`
  draws) and explicit fuel: a result of `none` means the loop has not
  returned a cell after `fuel` samples, so `(∀ fuel, … = none)` states
  that the loop never returns.
* React state updates (`setSnake`, `setScore`, …) executed inside one
  `setInterval` callback are flattened into a single pure transition on a
  `GameState` record; functional updaters chained between two ticks
  (`setDirection (prev => …)`) are modelled by folding the updater over
  the list of requests.
-/

namespace SnakeGame

/-- A grid cell, also used for direction vectors: the source uses plain
`{ x, y }` objects for both (e.g. lines 24–27 of `SnakeGame.jsx`). -/
structure Cell where
  x : Int
  y : Int
deriving DecidableEq, Repr

instance : Inhabited Cell := ⟨⟨0, 0⟩⟩

/-- `const GRID_SIZE = 20` (line 15). -/
def GRID_SIZE : Int := 20

/-- `positionsEqual` (lines 47–49). -/
def positionsEqual (a b : Cell) : Bool :=
  a.x == b.x && a.y == b.y

/-- `oppositeDirection` (lines 51–53). -/
def oppositeDirection (d1 d2 : Cell) : Bool :=
  (d1.x + d2.x == 0) && (d1.y + d2.y == 0)

/-- The body of `randomFoodPosition`'s `while (true)` loop (lines 39–45):
sample index `i` of the stream; if the sampled cell is in `exclude`,
continue with the next sample, otherwise return the cell. `none` means the
loop has not returned after `fuel` iterations. -/
def foodLoop (samples : Nat → Cell) (exclude : List Cell) : Nat → Nat → Option Cell
  | _, 0 => none
  | i, fuel + 1 =>
      let c := samples i
      if exclude.any (fun p => p.x == c.x && p.y == c.y) then
        foodLoop samples exclude (i + 1) fuel
      else
        some c

/-- `randomFoodPosition(exclude)` (lines 39–45), the sampling stream and the
iteration bound made explicit. The source's default argument is
`exclude = []`. -/
def randomFoodPosition (samples : Nat → Cell) (exclude : List Cell)
    (fuel : Nat) : Option Cell :=
  foodLoop samples exclude 0 fuel

/-- The component state held in the `useState` hooks (lines 24–36).
`highScore` also stands for the value persisted under the
`"snake_high_score"` key: the collision branch writes the same number to
both (lines 132–136). -/
structure GameState where
  snake : List Cell
  direction : Cell
  food : Cell
  running : Bool
  speed : Int
  score : Nat
  gameOver : Bool
  highScore : Nat
deriving DecidableEq, Repr

/-- The candidate new head of the tick (lines 122–125): current head plus
the active direction, each axis shifted by `GRID_SIZE` and reduced with
JS `%` (truncating remainder, `Int.tmod`). `prev[0]` is the list head. -/
def newHead (s : GameState) : Cell :=
  { x := (s.snake.head!.x + s.direction.x + GRID_SIZE).tmod GRID_SIZE,
    y := (s.snake.head!.y + s.direction.y + GRID_SIZE).tmod GRID_SIZE }

/-- One run of the `setInterval` game-loop callback (lines 117–153) as a
pure transition. The guard `if (!running || gameOver) return` (line 118)
means no interval is scheduled, i.e. the tick is a no-op. In the collision
branch (lines 128–138) the snake is returned unchanged and only `running`,
`gameOver` and the high score are written. In the food branch (lines
140–147) the grown snake keeps its tail and a new food cell is sampled
avoiding `newSnake`; `none` propagates a food loop that has not returned.
Otherwise `newSnake.pop()` removes the last cell (`dropLast`). -/
def tick (samples : Nat → Cell) (fuel : Nat) (s : GameState) : Option GameState :=
  if !s.running || s.gameOver then some s
  else
    let head := newHead s
    if s.snake.any (fun p => positionsEqual p head) then
      some { s with running := false, gameOver := true,
                    highScore := max s.highScore s.score }
    else
      let ateFood := positionsEqual head s.food
      let newSnake := head :: s.snake
      if ateFood then
        match foodLoop samples newSnake 0 fuel with
        | none => none
        | some f => some { s with snake := newSnake, score := s.score + 1, food := f }
      else
        some { s with snake := newSnake.dropLast }

/-- The `useState` initial values (lines 24–36): snake of length one at the
grid center `(⌊GRID_SIZE/2⌋, ⌊GRID_SIZE/2⌋)`, direction `(1,0)`, food from
`randomFoodPosition()` with the default empty exclude list, not running,
speed 8, score 0, not over; `storedHighScore` stands for the decoded
`localStorage.getItem("snake_high_score")`. -/
def initialState (samples : Nat → Cell) (fuel : Nat)
    (storedHighScore : Nat) : Option GameState :=
  match foodLoop samples [] 0 fuel with
  | none => none
  | some f =>
      some { snake := [⟨GRID_SIZE / 2, GRID_SIZE / 2⟩],
             direction := ⟨1, 0⟩,
             food := f,
             running := false,
             speed := 8,
             score := 0,
             gameOver := false,
             highScore := storedHighScore }

/-- `resetGame` (lines 231–238): snake back to the single center cell,
direction `(1,0)`, food from `randomFoodPosition()` — again with the
default empty exclude list — score 0, flags cleared. `highScore` and
`speed` are not written. -/
def resetGame (samples : Nat → Cell) (fuel : Nat) (s : GameState) : Option GameState :=
  match foodLoop samples [] 0 fuel with
  | none => none
  | some f =>
      some { s with snake := [⟨GRID_SIZE / 2, GRID_SIZE / 2⟩],
                    direction := ⟨1, 0⟩,
                    food := f,
                    score := 0,
                    gameOver := false,
                    running := false }

/-- One `setDirection` functional update as issued by the key handler
(lines 59–66), the swipe handler (lines 98–102) and the on-screen buttons
(lines 311–314): the requested direction is stored unless it is the
opposite of `prev`, the *current* value of the `direction` state — which is
whatever the last processed request stored, not necessarily the direction
the last tick moved with. -/
def applyDirRequest (prev req : Cell) : Cell :=
  if !oppositeDirection prev req then req else prev

/-- The buffered direction after a sequence of requests arriving within one
tick window, starting from `active`, the direction the last tick used:
React runs the queued functional updaters in order, each seeing the
previous one's result. -/
def applyDirRequests (active : Cell) (reqs : List Cell) : Cell :=
  reqs.foldl applyDirRequest active

/-- The speed slider (lines 298–305): an `<input type="range" min={3}
max={20}>` whose `onChange` stores `Number(e.target.value)`. Per the HTML
range-input semantics the control's value is always clamped into
`[min, max]` before change events fire, so the stored speed is the
requested value clamped to `[3, 20]`. -/
def setSpeed (s : GameState) (requested : Int) : GameState :=
  { s with speed := max 3 (min 20 requested) }

/-- Whether the food cell currently lies on the snake body. -/
def foodOnSnake (s : GameState) : Bool :=
  s.snake.any (fun p => positionsEqual p s.food)

/-- All 400 cells of the 20×20 grid; the sample space of
`Math.floor(Math.random() * GRID_SIZE)` pairs. -/
def allCells : List Cell :=
  (List.range 400).map (fun n => ⟨Int.ofNat (n % 20), Int.ofNat (n / 20)⟩)

/-! ### Concrete states used to instantiate the theorems -/

/-- A running game about to collide: the candidate head `(3,4)` is a body
cell. -/
def stCollision : GameState :=
  { snake := [⟨3, 3⟩, ⟨4, 3⟩, ⟨4, 4⟩, ⟨3, 4⟩], direction := ⟨0, 1⟩,
    food := ⟨0, 0⟩, running := true, speed := 8, score := 5,
    gameOver := false, highScore := 2 }

/-- A running game whose candidate head `(6,5)` is exactly the tail cell. -/
def stTailHit : GameState :=
  { snake := [⟨5, 5⟩, ⟨6, 5⟩], direction := ⟨1, 0⟩, food := ⟨0, 0⟩,
    running := true, speed := 8, score := 1, gameOver := false,
    highScore := 0 }

/-- A running game about to eat: the candidate head `(6,5)` is the food. -/
def stEat : GameState :=
  { snake := [⟨5, 5⟩, ⟨4, 5⟩], direction := ⟨1, 0⟩, food := ⟨6, 5⟩,
    running := true, speed := 8, score := 2, gameOver := false,
    highScore := 7 }

/-- A sampler for the eating tick: the first draw `(6,5)` lands on the
grown snake and is rejected, the second draw `(2,2)` is free. -/
def stEatSamples : Nat → Cell :=
  fun n => if n == 0 then ⟨6, 5⟩ else ⟨2, 2⟩

/-- The state after the eating tick from `stEat` under `stEatSamples`. -/
def stEatResult : GameState :=
  { stEat with snake := [⟨6, 5⟩, ⟨5, 5⟩, ⟨4, 5⟩], score := 3, food := ⟨2, 2⟩ }

/-- The spec's move scenario: snake `[(5,5),(4,5),(3,5)]`, direction
`(1,0)`, food elsewhere. -/
def stMove : GameState :=
  { snake := [⟨5, 5⟩, ⟨4, 5⟩, ⟨3, 5⟩], direction := ⟨1, 0⟩, food := ⟨0, 0⟩,
    running := true, speed := 8, score := 0, gameOver := false,
    highScore := 0 }

/-- The state after the plain move tick from `stMove`: head advances to
`(6,5)`, tail `(3,5)` dropped. -/
def stMoveResult : GameState :=
  { stMove with snake := [⟨6, 5⟩, ⟨5, 5⟩, ⟨4, 5⟩] }

/-- A running game with its head on the right edge, moving right. -/
def stEdge : GameState :=
  { snake := [⟨19, 7⟩], direction := ⟨1, 0⟩, food := ⟨2, 2⟩,
    running := true, speed := 8, score := 0, gameOver := false,
    highScore := 0 }

/-- A game at score 3 (high score 0) about to collide. -/
def stScore3 : GameState :=
  { snake := [⟨8, 8⟩, ⟨9, 8⟩], direction := ⟨1, 0⟩, food := ⟨1, 1⟩,
    running := true, speed := 8, score := 3, gameOver := false,
    highScore := 0 }

/-- A later game at score 2 (high score already 3) about to collide. -/
def stScore2 : GameState :=
  { snake := [⟨8, 8⟩, ⟨9, 8⟩], direction := ⟨1, 0⟩, food := ⟨1, 1⟩,
    running := true, speed := 8, score := 2, gameOver := false,
    highScore := 3 }

/-- A finished game handed to `resetGame`. -/
def stOver : GameState :=
  { snake := [⟨4, 4⟩, ⟨5, 4⟩, ⟨5, 5⟩], direction := ⟨0, 1⟩, food := ⟨7, 7⟩,
    running := false, speed := 12, score := 9, gameOver := true,
    highScore := 11 }

/-- The state after the collision tick from `stScore3`. -/
def stScore3Result : GameState :=
  { stScore3 with running := false, gameOver := true, highScore := 3 }

/-- The state after `resetGame` on `stOver` under the constant `(0,0)`
sampler. -/
def stOverReset : GameState :=
  { stOver with
    snake := [⟨10, 10⟩], direction := ⟨1, 0⟩, food := ⟨0, 0⟩,
    score := 0, gameOver := false, running := false }

/-! ## Generic facts about the embedded definitions -/

theorem positionsEqual_iff_eq (a b : Cell) : positionsEqual a b = true ↔ a = b := by
  obtain ⟨ax, ay⟩ := a
  obtain ⟨bx, bLo⟩ := b
  simp [positionsEqual]

theorem positionsEqual_self (a : Cell) : positionsEqual a a = true := by
  simp [positionsEqual]

/-- A cell returned by the food loop is never one of the excluded cells. -/
theorem foodLoop_not_excluded (samples : Nat → Cell) (exclude : List Cell) :
    ∀ (fuel i : Nat) (c : Cell), foodLoop samples exclude i fuel = some c →
      ∀ p ∈ exclude, positionsEqual p c = false := by
  intro fuel
  induction fuel with
  | zero => intro i c h; exact absurd h (by simp [foodLoop])
  | succ k ih =>
      intro i c h p hp
      rw [foodLoop] at h
      by_cases hany : exclude.any (fun q => q.x == (samples i).x && q.y == (samples i).y) = true
      · simp only [hany, if_true] at h
        exact ih (i + 1) c h p hp
      · simp only [hany, if_false] at h
        have hc : c = samples i := by
          simpa using h.symm
        subst hc
        have := List.any_eq_false.mp (Bool.not_eq_true _ ▸ hany) p hp
        simpa [positionsEqual] using this

/-- The wrap computation on one axis: since the dividend `v + d + GRID_SIZE`
is nonnegative for any in-grid coordinate and unit direction component, the
truncating remainder of JS `%` agrees with the Euclidean remainder. -/
theorem wrap_tmod_eq_emod (v d : Int) (hv : 0 ≤ v) (hd : -1 ≤ d) :
    (v + d + GRID_SIZE).tmod GRID_SIZE = (v + d + GRID_SIZE) % GRID_SIZE := by
  apply Int.tmod_eq_emod
  · simp only [GRID_SIZE]; omega
  · decide

/-- A zero direction component leaves an in-grid coordinate unchanged by
the wrap. -/
theorem wrap_keep (v : Int) (hv1 : 0 ≤ v) (hv2 : v < GRID_SIZE) :
    (v + 0 + GRID_SIZE).tmod GRID_SIZE = v := by
  rw [wrap_tmod_eq_emod v 0 hv1 (by decide)]
  simp only [GRID_SIZE] at *
  omega

/-- The wrapped coordinate lies in `[0, GRID_SIZE)` whenever the incoming
coordinate is nonnegative and the direction component is at least `-1`. -/
theorem wrap_bound (v d : Int) (hv1 : 0 ≤ v) (hd1 : -1 ≤ d) :
    0 ≤ (v + d + GRID_SIZE).tmod GRID_SIZE ∧
    (v + d + GRID_SIZE).tmod GRID_SIZE < GRID_SIZE := by
  rw [wrap_tmod_eq_emod v d hv1 hd1]
  simp only [GRID_SIZE] at *
  constructor <;> omega

/-! ## Claim theorems -/

/-- C1: a tick whose wrapped candidate head hits a cell of the current body
leaves snake, food and score unchanged; its only writes are
`running := false`, `gameOver := true` and
`highScore := max highScore score`. -/
theorem collision_tick_frame (samples : Nat → Cell) (fuel : Nat) (s : GameState)
    (hrun : s.running = true) (hover : s.gameOver = false)
    (hcol : s.snake.any (fun p => positionsEqual p (newHead s)) = true) :
    tick samples fuel s =
      some { s with running := false, gameOver := true,
                    highScore := max s.highScore s.score } := by
  simp [tick, hrun, hover, hcol]

/-- Witness for C1 at the concrete state `stCollision`. -/
theorem collision_tick_frame_witness :
    tick (fun _ => ⟨0, 0⟩) 1 stCollision =
      some { stCollision with running := false, gameOver := true,
                              highScore := max stCollision.highScore stCollision.score } :=
  collision_tick_frame (fun _ => ⟨0, 0⟩) 1 stCollision rfl rfl (by decide)

/-- C10: the self-collision scan runs over the pre-move body, tail
included: a candidate head equal to the current tail cell ends the game
even though that cell would be vacated by the same tick's tail removal. -/
theorem tail_collision_game_over (samples : Nat → Cell) (fuel : Nat) (s : GameState)
    (hrun : s.running = true) (hover : s.gameOver = false)
    (_hlen : 2 ≤ s.snake.length)
    (htail : s.snake.getLast? = some (newHead s)) :
    tick samples fuel s =
      some { s with running := false, gameOver := true,
                    highScore := max s.highScore s.score } := by
  have hmem : newHead s ∈ s.snake := List.mem_of_getLast?_eq_some htail
  have hcol : s.snake.any (fun p => positionsEqual p (newHead s)) = true :=
    List.any_eq_true.mpr ⟨newHead s, hmem, positionsEqual_self _⟩
  simp [tick, hrun, hover, hcol]

/-- Witness for C10 at the concrete state `stTailHit` (head `(5,5)` moving
right onto the tail `(6,5)`). -/
theorem tail_collision_game_over_witness :
    tick (fun _ => ⟨0, 0⟩) 1 stTailHit =
      some { stTailHit with running := false, gameOver := true,
                            highScore := max stTailHit.highScore stTailHit.score } :=
  tail_collision_game_over (fun _ => ⟨0, 0⟩) 1 stTailHit rfl rfl
    (by decide) (by decide)

/-- C2: a non-colliding tick onto the food increments the score by exactly
one, grows the snake by exactly one (head prepended, tail kept), and the
newly placed food avoids every cell of the post-growth snake. -/
theorem food_tick_growth (samples : Nat → Cell) (fuel : Nat) (s s' : GameState)
    (hrun : s.running = true) (hover : s.gameOver = false)
    (hnocol : s.snake.any (fun p => positionsEqual p (newHead s)) = false)
    (hfood : positionsEqual (newHead s) s.food = true)
    (htick : tick samples fuel s = some s') :
    s'.score = s.score + 1 ∧
    s'.snake = newHead s :: s.snake ∧
    s'.snake.length = s.snake.length + 1 ∧
    ∀ p ∈ s'.snake, positionsEqual p s'.food = false := by
  simp [tick, hrun, hover, hnocol, hfood] at htick
  cases hfl : foodLoop samples (newHead s :: s.snake) 0 fuel with
  | none =>
      rw [hfl] at htick
      simp at htick
  | some f =>
      rw [hfl] at htick
      simp only [Option.some.injEq] at htick
      subst htick
      refine ⟨rfl, rfl, by simp, ?_⟩
      intro p hp
      exact foodLoop_not_excluded samples (newHead s :: s.snake) fuel 0 f hfl p hp

/-- Witness for C2 at the concrete state `stEat`, with a sampler whose
first draw `(6,5)` lies on the grown snake, forcing one resample. -/
theorem food_tick_growth_witness :
    stEatResult.score = stEat.score + 1 ∧
    stEatResult.snake = newHead stEat :: stEat.snake ∧
    stEatResult.snake.length = stEat.snake.length + 1 ∧
    ∀ p ∈ stEatResult.snake, positionsEqual p stEatResult.food = false :=
  food_tick_growth stEatSamples 2 stEat stEatResult rfl rfl
    (by decide) (by decide) (by decide)

/-- C5: a tick that neither collides nor eats prepends the wrapped head and
drops the tail, preserving the snake's length; instantiated by the spec's
`[(5,5),(4,5),(3,5)]` scenario in the witness below. -/
theorem move_tick_preserves (samples : Nat → Cell) (fuel : Nat) (s s' : GameState)
    (hne : s.snake ≠ [])
    (hrun : s.running = true) (hover : s.gameOver = false)
    (hnocol : s.snake.any (fun p => positionsEqual p (newHead s)) = false)
    (hnofood : positionsEqual (newHead s) s.food = false)
    (htick : tick samples fuel s = some s') :
    s'.snake = newHead s :: s.snake.dropLast ∧
    s'.snake.length = s.snake.length ∧
    s'.food = s.food ∧ s'.score = s.score := by
  simp [tick, hrun, hover, hnocol, hnofood] at htick
  subst htick
  refine ⟨?_, ?_, rfl, rfl⟩
  · simp [List.dropLast_cons_of_ne_nil hne]
  · simp only [List.length_dropLast, List.length_cons, Nat.add_sub_cancel]

/-- C6: the tick's candidate head is the current head plus the active
direction with each axis reduced modulo `GRID_SIZE`: it always lies inside
the grid, and at each of the four edges the head wraps to the opposite
edge with the other coordinate unchanged. -/
theorem newHead_wraps (s : GameState)
    (hx1 : 0 ≤ s.snake.head!.x) (hx2 : s.snake.head!.x < GRID_SIZE)
    (hy1 : 0 ≤ s.snake.head!.y) (hy2 : s.snake.head!.y < GRID_SIZE)
    (hd : s.direction = ⟨1, 0⟩ ∨ s.direction = ⟨-1, 0⟩ ∨
          s.direction = ⟨0, 1⟩ ∨ s.direction = ⟨0, -1⟩) :
    (0 ≤ (newHead s).x ∧ (newHead s).x < GRID_SIZE ∧
     0 ≤ (newHead s).y ∧ (newHead s).y < GRID_SIZE) ∧
    (s.direction = ⟨1, 0⟩ → s.snake.head!.x = GRID_SIZE - 1 →
      newHead s = ⟨0, s.snake.head!.y⟩) ∧
    (s.direction = ⟨-1, 0⟩ → s.snake.head!.x = 0 →
      newHead s = ⟨GRID_SIZE - 1, s.snake.head!.y⟩) ∧
    (s.direction = ⟨0, 1⟩ → s.snake.head!.y = GRID_SIZE - 1 →
      newHead s = ⟨s.snake.head!.x, 0⟩) ∧
    (s.direction = ⟨0, -1⟩ → s.snake.head!.y = 0 →
      newHead s = ⟨s.snake.head!.x, GRID_SIZE - 1⟩) := by
  rcases hd with hd | hd | hd | hd <;>
    refine ⟨⟨?_, ?_, ?_, ?_⟩, ?_, ?_, ?_, ?_⟩ <;>
      simp only [newHead, hd, Cell.mk.injEq] <;>
        first
          | exact (wrap_bound _ _ hx1 (by decide)).1
          | exact (wrap_bound _ _ hx1 (by decide)).2
          | exact (wrap_bound _ _ hy1 (by decide)).1
          | exact (wrap_bound _ _ hy1 (by decide)).2
          | (intro h1 h2; exact absurd h1 (by decide))
          | (intro h1 h2
             rw [h2]
             refine ⟨by decide, wrap_keep _ hy1 hy2⟩)
          | (intro h1 h2
             rw [h2]
             refine ⟨wrap_keep _ hx1 hx2, by decide⟩)

/-- Witness for C6 at the concrete state `stEdge`: the head `(19,7)`
moving right wraps to `(0,7)`. -/
theorem newHead_wraps_witness : newHead stEdge = ⟨0, 7⟩ :=
  (newHead_wraps stEdge (by decide) (by decide) (by decide) (by decide)
      (Or.inl rfl)).2.1 rfl (by decide)

/-- C3 counterexample: starting from active direction `(1,0)`, the request
pair up-then-left within one tick window buffers `(-1,0)` — the exact
opposite of the active direction. The second request was tested against
the just-set pending direction `(0,-1)`, not the active one, so the next
tick moves in the reverse of the previously active direction. -/
theorem dir_requests_reverse_counterexample :
    applyDirRequests ⟨1, 0⟩ [⟨0, -1⟩, ⟨-1, 0⟩] = ⟨-1, 0⟩ ∧
    oppositeDirection ⟨1, 0⟩ ⟨-1, 0⟩ = true := by decide

/-- C3 (amended): each `setDirection` request is tested against the current
pending value of the direction state: a request opposite to the pending
direction is dropped, any other request replaces it, and a lone request in
a tick window is therefore tested against the active direction; but a pair
of requests can buffer the reverse of the active direction. -/
theorem setDirection_pending_check (pending req : Cell) :
    (oppositeDirection pending req = true → applyDirRequest pending req = pending) ∧
    (oppositeDirection pending req = false → applyDirRequest pending req = req) ∧
    applyDirRequests pending [req] = applyDirRequest pending req ∧
    applyDirRequests ⟨1, 0⟩ [⟨0, -1⟩, ⟨-1, 0⟩] = ⟨-1, 0⟩ := by
  refine ⟨?_, ?_, rfl, by decide⟩
  · intro h; simp [applyDirRequest, h]
  · intro h; simp [applyDirRequest, h]

/-- Witness for C3 at concrete directions: the single opposite request
left-while-pending-right is dropped. -/
theorem setDirection_pending_check_witness :
    applyDirRequest ⟨1, 0⟩ ⟨-1, 0⟩ = ⟨1, 0⟩ :=
  (setDirection_pending_check ⟨1, 0⟩ ⟨-1, 0⟩).1 (by decide)

/-- C4: at creation and at reset the food is drawn with the default empty
exclude list, so a sampler whose first draw is the grid center `(10,10)` —
the only snake cell at those moments — places the food on the snake both
at creation and at reset. -/
theorem food_overlaps_snake_at_creation_and_reset :
    Option.map foodOnSnake (initialState (fun _ => ⟨10, 10⟩) 1 0) = some true ∧
    Option.map foodOnSnake (resetGame (fun _ => ⟨10, 10⟩) 1 stOver) = some true := by
  decide

/-- C7: when the snake occupies every cell of the grid, the food-placement
loop never returns, whatever the iteration bound — the code resamples
without bound and no `boardFull` condition exists anywhere in it. -/
theorem foodLoop_full_grid_never_returns (samples : Nat → Cell)
    (hin : ∀ n, samples n ∈ allCells) :
    ∀ (fuel i : Nat), foodLoop samples allCells i fuel = none := by
  intro fuel
  induction fuel with
  | zero => intro i; rfl
  | succ k ih =>
      intro i
      have hany : allCells.any
          (fun p => p.x == (samples i).x && p.y == (samples i).y) = true :=
        List.any_eq_true.mpr ⟨samples i, hin i, by simp⟩
      simp [foodLoop, hany, ih (i + 1)]

/-- Witness for C7: the constant in-grid sampler finds no cell in five
iterations over the fully occupied grid. -/
theorem foodLoop_full_grid_never_returns_witness :
    foodLoop (fun _ => ⟨0, 0⟩) allCells 0 5 = none :=
  foodLoop_full_grid_never_returns (fun _ => ⟨0, 0⟩)
    (fun _ => show (⟨0, 0⟩ : Cell) ∈ allCells by decide) 5 0

/-- C8: the persisted high score never decreases: any tick leaves it equal
or larger, a collision tick writes `max highScore score`, and `resetGame`
never touches it; concretely a game ending at score 3 with high score 0
stores 3, and a later game ending at score 2 leaves it at 3. -/
theorem highScore_monotone (samples : Nat → Cell) (fuel : Nat)
    (s s' r r' : GameState)
    (htick : tick samples fuel s = some s')
    (hreset : resetGame samples fuel r = some r') :
    s.highScore ≤ s'.highScore ∧
    (s.running = true → s.gameOver = false →
      s.snake.any (fun p => positionsEqual p (newHead s)) = true →
      s'.highScore = max s.highScore s.score) ∧
    r'.highScore = r.highScore ∧
    Option.map GameState.highScore (tick (fun _ => ⟨0, 0⟩) 1 stScore3) = some 3 ∧
    Option.map GameState.highScore (tick (fun _ => ⟨0, 0⟩) 1 stScore2) = some 3 := by
  refine ⟨?_, ?_, ?_, by decide, by decide⟩
  · by_cases hrun : s.running = true
    · by_cases hover : s.gameOver = true
      · simp [tick, hrun, hover] at htick
        subst htick
        exact le_refl _
      · simp only [Bool.not_eq_true] at hover
        by_cases hcol : s.snake.any (fun p => positionsEqual p (newHead s)) = true
        · simp [tick, hrun, hover, hcol] at htick
          subst htick
          exact le_max_left _ _
        · simp only [Bool.not_eq_true] at hcol
          by_cases hfood : positionsEqual (newHead s) s.food = true
          · simp [tick, hrun, hover, hcol, hfood] at htick
            cases hfl : foodLoop samples (newHead s :: s.snake) 0 fuel with
            | none => rw [hfl] at htick; simp at htick
            | some f =>
                rw [hfl] at htick
                simp only [Option.some.injEq] at htick
                subst htick
                exact le_refl _
          · simp only [Bool.not_eq_true] at hfood
            simp [tick, hrun, hover, hcol, hfood] at htick
            subst htick
            exact le_refl _
    · simp only [Bool.not_eq_true] at hrun
      simp [tick, hrun] at htick
      subst htick
      exact le_refl _
  · intro hrun hover hcol
    simp [tick, hrun, hover, hcol] at htick
    subst htick
    rfl
  · rw [resetGame] at hreset
    cases hfl : foodLoop samples [] 0 fuel with
    | none => rw [hfl] at hreset; simp at hreset
    | some f =>
        rw [hfl] at hreset
        simp only [Option.some.injEq] at hreset
        subst hreset
        rfl

/-- Witness for C8: the collision tick from `stScore3` and the reset of
`stOver`, both under the constant `(0,0)` sampler. -/
theorem highScore_monotone_witness :
    stScore3.highScore ≤ stScore3Result.highScore :=
  (highScore_monotone (fun _ => ⟨0, 0⟩) 1 stScore3 stScore3Result stOver stOverReset
      (by decide) (by decide)).1

/-- C9: the stored speed is the requested rate clamped into `[3, 20]`:
in-bounds requests are stored unchanged, out-of-bounds requests go to the
nearest bound, and the operation is total (never fails). -/
theorem setSpeed_clamps (s : GameState) (requested : Int) :
    3 ≤ (setSpeed s requested).speed ∧ (setSpeed s requested).speed ≤ 20 ∧
    (requested < 3 → (setSpeed s requested).speed = 3) ∧
    (20 < requested → (setSpeed s requested).speed = 20) ∧
    (3 ≤ requested → requested ≤ 20 → (setSpeed s requested).speed = requested) := by
  simp only [setSpeed]
  refine ⟨?_, ?_, ?_, ?_, ?_⟩ <;> intros <;> omega

/-- Witness for C9: the out-of-range request 25 is stored as 20. -/
theorem setSpeed_clamps_witness : (setSpeed stOver 25).speed = 20 :=
  (setSpeed_clamps stOver 25).2.2.2.1 (by decide)

/-- Witness for C5 at the spec's scenario `stMove`: the tick yields the
snake `[(6,5),(5,5),(4,5)]`. -/
theorem move_tick_preserves_witness :
    stMoveResult.snake = newHead stMove :: stMove.snake.dropLast ∧
    stMoveResult.snake.length = stMove.snake.length ∧
    stMoveResult.food = stMove.food ∧ stMoveResult.score = stMove.score :=
  move_tick_preserves (fun _ => ⟨0, 0⟩) 1 stMove stMoveResult
    (by decide) rfl rfl (by decide) (by decide) (by decide)

end SnakeGame
